import Mathlib

/-!
# Verification of glowl's Mesh aggregate (src/include/glowl/Mesh.hpp)

A shallow embedding of the Mesh class from the glowl header-only OpenGL
library.  Machine integers are modelled as Nat with explicit reductions
modulo 2^32 where the source performs a cast to GLuint.  The OpenGL
context is modelled as an explicit state record together with a small
command language covering exactly the entry points the Mesh uses; every
executed command is also appended to a log so that the sequence of calls
issued by an operation is itself observable.
-/

namespace glowl

/-! ## OpenGL enumerants (values from glad/GL headers) -/

def GL_UNSIGNED_BYTE : Nat := 0x1401

def GL_UNSIGNED_SHORT : Nat := 0x1403

def GL_UNSIGNED_INT : Nat := 0x1405

def GL_FLOAT : Nat := 0x1406

def GL_TRIANGLES : Nat := 0x0004

def GL_STATIC_DRAW : Nat := 0x88E4

def GL_ARRAY_BUFFER : Nat := 0x8892

def GL_ELEMENT_ARRAY_BUFFER : Nat := 0x8893

/-! ## External collaborators: VertexLayout and BufferObject

Their definitions live outside src/ (VertexLayout.hpp, BufferObject.hpp);
they are modelled from the spec. -/

/-- Modelled from the spec: one attribute descriptor of a VertexLayout:
"component count, component type, normalized flag, byte offset within a
vertex". -/
structure VLAttribute where
  size : Nat
  type : Nat
  normalized : Bool
  offset : Nat
deriving DecidableEq

/-- Modelled from the spec: VertexLayout.hpp is not under src/.  "VertexLayout
(external data record): ordered list of attribute descriptors (component
count, component type, normalized flag, byte offset within a vertex) plus
either one interleaved stride shared by all attributes or one stride per
attribute (one VBO per attribute)."  The alternative in that sentence is
carried as the field strides_ok. -/
structure VertexLayout where
  attributes : List VLAttribute
  strides : List Nat
  strides_ok : strides.length = 1 ∨ strides.length = attributes.length

/-- The stride chosen for attribute i by the constructor loop (Mesh.hpp lines
206-207 and 276-277): the single shared stride when exactly one stride is
supplied, the i-th stride otherwise. -/
def VertexLayout.strideOf (ld : VertexLayout) (i : Nat) : Nat :=
  if ld.strides.length = 1 then ld.strides.headD 0 else ld.strides.getD i 0

/-- Bytes read from a raw data pointer: byte j of the range is p j. -/
def readBytes (p : Nat → Nat) (n : Nat) : List Nat :=
  (List.range n).map p

/-- Modelled from the spec: a typed contiguous container as the template
constructors see it: an element count (size()) , an element byte size
(sizeof(value_type)) and the underlying bytes. -/
structure Container where
  elemSize : Nat
  count : Nat
  bytes : Nat → Nat

/-- Modelled from the spec: BufferObject.hpp is not under src/.  "treated as
an external collaborator that owns a single graphics buffer handle and
offers bind, bufferSubData, getByteSize". -/
structure BufferObject where
  target : Nat
  handle : Nat
  content : List Nat
  usage : Nat
deriving DecidableEq

def BufferObject.getByteSize (b : BufferObject) : Nat :=
  b.content.length

/-- Modelled from the spec: BufferObject's sub-range update rewrites the byte
range when it fits inside the buffer and leaves the buffer unchanged
otherwise. -/
def BufferObject.bufferSubDataRaw (b : BufferObject) (data : Nat → Nat)
    (byte_size byte_offset : Nat) : BufferObject :=
  if byte_offset + byte_size ≤ b.content.length then
    { b with
      content :=
        b.content.take byte_offset ++ readBytes data byte_size ++
          b.content.drop (byte_offset + byte_size) }
  else b

/-- Container overload of the sub-range update: the byte size is derived from
the container as size() * sizeof(value_type). -/
def BufferObject.bufferSubDataC (b : BufferObject) (c : Container)
    (byte_offset : Nat) : BufferObject :=
  b.bufferSubDataRaw c.bytes (c.count * c.elemSize) byte_offset

def defaultBuffer : BufferObject :=
  { target := 0, handle := 0, content := [], usage := 0 }

/-! ## The Mesh data model (Mesh.hpp lines 161-172) -/

structure Mesh where
  m_vbos : List BufferObject
  m_ibo : BufferObject
  m_va_handle : Nat
  m_vertex_descriptor : VertexLayout
  m_indices_cnt : Nat
  m_index_type : Nat
  m_usage : Nat
  m_primitive_type : Nat

/-- The switch over m_index_type (Mesh.hpp lines 223-234 and 294-305):
m_indices_cnt is initialised to 0 and set only for the three unsigned
integer enumerants; the division result is cast to GLuint. -/
def indicesCntFromByteSize (index_type byte_size : Nat) : Nat :=
  if index_type = GL_UNSIGNED_INT then byte_size / 4 % 2 ^ 32
  else if index_type = GL_UNSIGNED_SHORT then byte_size / 2 % 2 ^ 32
  else if index_type = GL_UNSIGNED_BYTE then byte_size / 1 % 2 ^ 32
  else 0

/-- Form A constructor (Mesh.hpp lines 174-241): raw pointers plus explicit
byte sizes.  The handles returned by glGenBuffers / glGenVertexArrays are
passed in as vboHandles, iboHandle and vaHandle; the OpenGL commands the
constructor issues are modelled separately by mkMeshACmds. -/
def mkMeshA (vertex_data : List (Nat → Nat)) (vertex_data_byte_sizes : List Nat)
    (index_data : Nat → Nat) (index_data_byte_size : Nat)
    (vertex_descriptor : VertexLayout) (index_type usage primitive_type : Nat)
    (vboHandles : List Nat) (iboHandle vaHandle : Nat) : Mesh :=
  { m_vbos :=
      (List.range vertex_data.length).map fun i =>
        { target := GL_ARRAY_BUFFER
          handle := vboHandles.getD i 0
          content :=
            readBytes (vertex_data.getD i fun _ => 0)
              (vertex_data_byte_sizes.getD i 0)
          usage := usage }
    m_ibo :=
      { target := GL_ELEMENT_ARRAY_BUFFER
        handle := iboHandle
        content := readBytes index_data index_data_byte_size
        usage := usage }
    m_va_handle := vaHandle
    m_vertex_descriptor := vertex_descriptor
    m_indices_cnt := indicesCntFromByteSize index_type index_data_byte_size
    m_index_type := index_type
    m_usage := usage
    m_primitive_type := primitive_type }

/-- Form A with the defaulted trailing arguments of the source signature
(Mesh.hpp lines 64-66): index_type = GL_UNSIGNED_INT, usage =
GL_STATIC_DRAW, primitive_type = GL_TRIANGLES. -/
def mkMeshADefaults (vertex_data : List (Nat → Nat))
    (vertex_data_byte_sizes : List Nat) (index_data : Nat → Nat)
    (index_data_byte_size : Nat) (vertex_descriptor : VertexLayout)
    (vboHandles : List Nat) (iboHandle vaHandle : Nat) : Mesh :=
  mkMeshA vertex_data vertex_data_byte_sizes index_data index_data_byte_size
    vertex_descriptor GL_UNSIGNED_INT GL_STATIC_DRAW GL_TRIANGLES vboHandles
    iboHandle vaHandle

/-- Form B constructor (Mesh.hpp lines 243-312): typed containers.  The index
buffer's byte size is index_data.size() * sizeof(value_type); vi_size is
that product cast to GLuint (Mesh.hpp line 292). -/
def mkMeshB (vertex_data : List Container) (index_data : Container)
    (vertex_descriptor : VertexLayout) (index_type usage primitive_type : Nat)
    (vboHandles : List Nat) (iboHandle vaHandle : Nat) : Mesh :=
  { m_vbos :=
      (List.range vertex_data.length).map fun i =>
        let c := vertex_data.getD i ⟨0, 0, fun _ => 0⟩
        { target := GL_ARRAY_BUFFER
          handle := vboHandles.getD i 0
          content := readBytes c.bytes (c.count * c.elemSize)
          usage := usage }
    m_ibo :=
      { target := GL_ELEMENT_ARRAY_BUFFER
        handle := iboHandle
        content := readBytes index_data.bytes (index_data.count * index_data.elemSize)
        usage := usage }
    m_va_handle := vaHandle
    m_vertex_descriptor := vertex_descriptor
    m_indices_cnt :=
      indicesCntFromByteSize index_type
        (index_data.count * index_data.elemSize % 2 ^ 32)
    m_index_type := index_type
    m_usage := usage
    m_primitive_type := primitive_type }

/-- Form B with the defaulted trailing arguments of the source signature
(Mesh.hpp lines 78-80). -/
def mkMeshBDefaults (vertex_data : List Container) (index_data : Container)
    (vertex_descriptor : VertexLayout) (vboHandles : List Nat)
    (iboHandle vaHandle : Nat) : Mesh :=
  mkMeshB vertex_data index_data vertex_descriptor GL_UNSIGNED_INT
    GL_STATIC_DRAW GL_TRIANGLES vboHandles iboHandle vaHandle

/-! ## Accessors (Mesh.hpp lines 119-159) -/

def Mesh.getVertexLayout (m : Mesh) : VertexLayout :=
  m.m_vertex_descriptor

def Mesh.getIndicesCount (m : Mesh) : Nat :=
  m.m_indices_cnt

def Mesh.getIndexType (m : Mesh) : Nat :=
  m.m_index_type

def Mesh.getPrimitiveType (m : Mesh) : Nat :=
  m.m_primitive_type

/-- Mesh.hpp lines 139-146: the stored byte size when vbo_idx is in range,
0 otherwise. -/
def Mesh.getVertexBufferByteSize (m : Mesh) (vbo_idx : Nat) : Nat :=
  if vbo_idx < m.m_vbos.length then
    (m.m_vbos.getD vbo_idx defaultBuffer).getByteSize
  else 0

def Mesh.getIndexBufferByteSize (m : Mesh) : Nat :=
  m.m_ibo.getByteSize

/-! ## Partial updates (Mesh.hpp lines 314-339) -/

/-- Pointer overload of bufferVertexSubData (Mesh.hpp lines 321-327): guarded
by idx < m_vbos.size(), otherwise a silent no-op. -/
def Mesh.bufferVertexSubData (m : Mesh) (idx : Nat) (data : Nat → Nat)
    (byte_size byte_offset : Nat) : Mesh :=
  if idx < m.m_vbos.length then
    { m with
      m_vbos :=
        m.m_vbos.set idx
          ((m.m_vbos.getD idx defaultBuffer).bufferSubDataRaw data byte_size
            byte_offset) }
  else m

/-- Container overload of bufferVertexSubData (Mesh.hpp lines 314-319). -/
def Mesh.bufferVertexSubDataC (m : Mesh) (vbo_idx : Nat) (vertices : Container)
    (byte_offset : Nat) : Mesh :=
  if vbo_idx < m.m_vbos.length then
    { m with
      m_vbos :=
        m.m_vbos.set vbo_idx
          ((m.m_vbos.getD vbo_idx defaultBuffer).bufferSubDataC vertices
            byte_offset) }
  else m

/-- Pointer overload of bufferIndexSubData (Mesh.hpp lines 336-339). -/
def Mesh.bufferIndexSubData (m : Mesh) (data : Nat → Nat)
    (byte_size byte_offset : Nat) : Mesh :=
  { m with m_ibo := m.m_ibo.bufferSubDataRaw data byte_size byte_offset }

/-- Container overload of bufferIndexSubData (Mesh.hpp lines 329-334). -/
def Mesh.bufferIndexSubDataC (m : Mesh) (indices : Container)
    (byte_offset : Nat) : Mesh :=
  { m with m_ibo := m.m_ibo.bufferSubDataC indices byte_offset }

/-! ## The OpenGL context model

Only the entry points the Mesh uses are modelled.  glBindBuffer on the
element-array target writes into the vertex-array object that is currently
bound (handle 0 denoting the default one), and glVertexAttribPointer
captures the array-buffer binding current at the time of the call into the
currently bound vertex-array — these are the OpenGL semantics the
constructor's ordering relies on. -/

inductive GLCmd where
  | bindVertexArray (h : Nat)
  | bindBuffer (target : Nat) (h : Nat)
  | enableVertexAttribArray (i : Nat)
  | vertexAttribPointer (i : Nat) (size : Nat) (type : Nat) (normalized : Bool)
      (stride : Nat) (pointer : Nat)
  | drawElementsInstanced (mode : Nat) (count : Nat) (type : Nat)
      (indices : Nat) (instanceCnt : Int)
deriving DecidableEq

/-- One attribute slot of a vertex-array object, as captured by
glVertexAttribPointer: the format arguments plus the array-buffer binding
that was current at the call. -/
structure VAttribPtr where
  size : Nat
  type : Nat
  normalized : Bool
  stride : Nat
  pointer : Nat
  bufferBinding : Nat
deriving DecidableEq

structure GLContext where
  boundVertexArray : Nat
  boundArrayBuffer : Nat
  vaoEnabled : Nat → Nat → Bool
  vaoPointer : Nat → Nat → Option VAttribPtr
  vaoElementArray : Nat → Nat
  log : List GLCmd

/-- A context with all bindings zero and no attribute state. -/
def GLContext.init : GLContext :=
  { boundVertexArray := 0
    boundArrayBuffer := 0
    vaoEnabled := fun _ _ => false
    vaoPointer := fun _ _ => none
    vaoElementArray := fun _ => 0
    log := [] }

/-- Execute one command; the command is also recorded in the log. -/
def GLContext.exec (g : GLContext) (c : GLCmd) : GLContext :=
  let g1 : GLContext := { g with log := g.log ++ [c] }
  match c with
  | GLCmd.bindVertexArray h => { g1 with boundVertexArray := h }
  | GLCmd.bindBuffer target h =>
    if target = GL_ARRAY_BUFFER then { g1 with boundArrayBuffer := h }
    else if target = GL_ELEMENT_ARRAY_BUFFER then
      { g1 with
        vaoElementArray := fun v =>
          if v = g.boundVertexArray then h else g.vaoElementArray v }
    else g1
  | GLCmd.enableVertexAttribArray i =>
    { g1 with
      vaoEnabled := fun v j =>
        if v = g.boundVertexArray ∧ j = i then true else g.vaoEnabled v j }
  | GLCmd.vertexAttribPointer i sz ty nm st ptr =>
    { g1 with
      vaoPointer := fun v j =>
        if v = g.boundVertexArray ∧ j = i then
          some ⟨sz, ty, nm, st, ptr, g.boundArrayBuffer⟩
        else g.vaoPointer v j }
  | GLCmd.drawElementsInstanced _ _ _ _ _ => g1

def GLContext.run (g : GLContext) (cs : List GLCmd) : GLContext :=
  cs.foldl GLContext.exec g

/-! ## The commands issued by the Mesh operations -/

/-- One iteration of the attribute loop (Mesh.hpp lines 203-218 and 273-288):
bind m_vbos[attrib_idx], enable slot attrib_idx, describe the attribute with
the selected stride.  The buffer handle and the attribute are looked up with
a default (the source indexes unchecked; in-range behaviour is what the
theorems quantify over). -/
def attribIterCmds (vboHandles : List Nat) (ld : VertexLayout) (i : Nat) :
    List GLCmd :=
  let a := ld.attributes.getD i ⟨0, 0, false, 0⟩
  [GLCmd.bindBuffer GL_ARRAY_BUFFER (vboHandles.getD i 0),
   GLCmd.enableVertexAttribArray i,
   GLCmd.vertexAttribPointer i a.size a.type a.normalized (ld.strideOf i)
     a.offset]

/-- The first n iterations of the attribute loop. -/
def attribCmdsUpTo (vboHandles : List Nat) (ld : VertexLayout) (n : Nat) :
    List GLCmd :=
  ((List.range n).map (attribIterCmds vboHandles ld)).flatten

/-- The whole attribute loop, one iteration per attribute. -/
def attribCmds (vboHandles : List Nat) (ld : VertexLayout) : List GLCmd :=
  attribCmdsUpTo vboHandles ld ld.attributes.length

/-- The vertex-array wiring commands of the Form A constructor (Mesh.hpp
lines 198-221): bind the new vertex-array, bind the index buffer, run the
attribute loop, then unbind the vertex-array, the array buffer and the
element-array buffer. -/
def mkMeshACmds (vboHandles : List Nat) (iboHandle vaHandle : Nat)
    (ld : VertexLayout) : List GLCmd :=
  GLCmd.bindVertexArray vaHandle ::
    GLCmd.bindBuffer GL_ELEMENT_ARRAY_BUFFER iboHandle ::
      (attribCmds vboHandles ld ++
        [GLCmd.bindVertexArray 0, GLCmd.bindBuffer GL_ARRAY_BUFFER 0,
          GLCmd.bindBuffer GL_ELEMENT_ARRAY_BUFFER 0])

/-- The vertex-array wiring commands of the Form B constructor (Mesh.hpp
lines 269-290): as Form A but without the final element-array unbind. -/
def mkMeshBCmds (vboHandles : List Nat) (iboHandle vaHandle : Nat)
    (ld : VertexLayout) : List GLCmd :=
  GLCmd.bindVertexArray vaHandle ::
    GLCmd.bindBuffer GL_ELEMENT_ARRAY_BUFFER iboHandle ::
      (attribCmds vboHandles ld ++
        [GLCmd.bindVertexArray 0, GLCmd.bindBuffer GL_ARRAY_BUFFER 0])

/-- Mesh::draw (Mesh.hpp lines 112-117): bind the vertex-array, issue one
glDrawElementsInstanced with the stored primitive type, indices count and
index type, a null index pointer (modelled as 0) and the given instance
count, then bind vertex-array 0. -/
def Mesh.drawCmds (m : Mesh) (instance_cnt : Int) : List GLCmd :=
  [GLCmd.bindVertexArray m.m_va_handle,
   GLCmd.drawElementsInstanced m.m_primitive_type m.m_indices_cnt
     m.m_index_type 0 instance_cnt,
   GLCmd.bindVertexArray 0]

/-- Mesh::draw with the defaulted instance count of the source signature
(Mesh.hpp line 112): instance_cnt = 1. -/
def Mesh.drawCmdsDefault (m : Mesh) : List GLCmd :=
  m.drawCmds 1

/-- Mesh::bindVertexArray (Mesh.hpp lines 102-105). -/
def Mesh.bindVertexArrayCmds (m : Mesh) : List GLCmd :=
  [GLCmd.bindVertexArray m.m_va_handle]

/-- The attribute-slot value that iteration i of the constructor loop records
into the vertex-array: the attribute's format, the selected stride, and the
handle of the i-th vertex buffer (which is the array-buffer binding at the
glVertexAttribPointer call). -/
def capturedPtr (vboHandles : List Nat) (ld : VertexLayout) (i : Nat) :
    VAttribPtr :=
  let a := ld.attributes.getD i ⟨0, 0, false, 0⟩
  ⟨a.size, a.type, a.normalized, ld.strideOf i, a.offset, vboHandles.getD i 0⟩

/-! ## Lemmas about the context machine -/

theorem GLContext.run_append (g : GLContext) (xs ys : List GLCmd) :
    g.run (xs ++ ys) = (g.run xs).run ys :=
  List.foldl_append ..

theorem attribCmdsUpTo_succ (v : List Nat) (ld : VertexLayout) (n : Nat) :
    attribCmdsUpTo v ld (n + 1) =
      attribCmdsUpTo v ld n ++ attribIterCmds v ld n := by
  simp [attribCmdsUpTo, List.range_succ]

theorem exec_vaoPointer (g : GLContext) (c : GLCmd)
    (h : ∀ i sz ty nm st ptr, c ≠ GLCmd.vertexAttribPointer i sz ty nm st ptr) :
    (g.exec c).vaoPointer = g.vaoPointer := by
  cases c with
  | bindBuffer target hdl =>
    simp only [GLContext.exec]
    split
    · rfl
    · split <;> rfl
  | vertexAttribPointer i sz ty nm st ptr => exact absurd rfl (h i sz ty nm st ptr)
  | _ => rfl

theorem exec_boundVertexArray (g : GLContext) (c : GLCmd)
    (h : ∀ hdl, c ≠ GLCmd.bindVertexArray hdl) :
    (g.exec c).boundVertexArray = g.boundVertexArray := by
  cases c with
  | bindVertexArray hdl => exact absurd rfl (h hdl)
  | bindBuffer target hdl =>
    simp only [GLContext.exec]
    split
    · rfl
    · split <;> rfl
  | _ => rfl

/-- Effect of one iteration of the attribute loop: it records the slot value
for attribute n into the currently bound vertex-array and leaves every other
attribute slot, and the vertex-array binding, unchanged. -/
theorem run_attribIter (g : GLContext) (v : List Nat) (ld : VertexLayout)
    (n : Nat) :
    ((g.run (attribIterCmds v ld n)).boundVertexArray = g.boundVertexArray) ∧
    ∀ va j,
      (g.run (attribIterCmds v ld n)).vaoPointer va j =
        if va = g.boundVertexArray ∧ j = n then some (capturedPtr v ld n)
        else g.vaoPointer va j := by
  constructor
  · simp [GLContext.run, GLContext.exec, attribIterCmds, GL_ARRAY_BUFFER,
      GL_ELEMENT_ARRAY_BUFFER]
  · intro va j
    simp [GLContext.run, GLContext.exec, attribIterCmds, capturedPtr,
      GL_ARRAY_BUFFER, GL_ELEMENT_ARRAY_BUFFER]

/-- Effect of the first n iterations of the attribute loop, by induction:
attribute slots 0..n-1 of the bound vertex-array hold the captured values,
everything else is untouched. -/
theorem run_attribCmdsUpTo (g : GLContext) (v : List Nat) (ld : VertexLayout)
    (n : Nat) :
    ((g.run (attribCmdsUpTo v ld n)).boundVertexArray = g.boundVertexArray) ∧
    ∀ va j,
      (g.run (attribCmdsUpTo v ld n)).vaoPointer va j =
        if va = g.boundVertexArray ∧ j < n then some (capturedPtr v ld j)
        else g.vaoPointer va j := by
  induction n with
  | zero =>
    constructor
    · rfl
    · intro va j
      simp [attribCmdsUpTo, GLContext.run]
  | succ n ih =>
    obtain ⟨ihbva, ihptr⟩ := ih
    rw [attribCmdsUpTo_succ]
    rw [GLContext.run_append]
    obtain ⟨hbva1, hptr1⟩ :=
      run_attribIter (g.run (attribCmdsUpTo v ld n)) v ld n
    constructor
    · rw [hbva1, ihbva]
    · intro va j
      rw [hptr1 va j, ihbva, ihptr va j]
      by_cases hva : va = g.boundVertexArray
      · subst hva
        by_cases hj : j = n
        · subst hj
          simp
        · by_cases hjn : j < n
          · simp [hj, hjn, Nat.lt_succ_of_lt hjn]
          · have : ¬ j < n + 1 := by omega
            simp [hj, hjn, this]
      · simp [hva]

/-- After the full Form A wiring command sequence, attribute slot i of the
new vertex-array holds the captured value for attribute i. -/
theorem run_mkMeshACmds_vaoPointer (g : GLContext) (v : List Nat)
    (ibo va : Nat) (ld : VertexLayout) (i : Nat)
    (hi : i < ld.attributes.length) :
    (g.run (mkMeshACmds v ibo va ld)).vaoPointer va i =
      some (capturedPtr v ld i) := by
  have hbva2 :
      (g.run [GLCmd.bindVertexArray va,
        GLCmd.bindBuffer GL_ELEMENT_ARRAY_BUFFER ibo]).boundVertexArray =
        va := by
    show ((g.exec (GLCmd.bindVertexArray va)).exec
      (GLCmd.bindBuffer GL_ELEMENT_ARRAY_BUFFER ibo)).boundVertexArray = va
    rw [exec_boundVertexArray _ _ (by intro hdl h; cases h)]
    rfl
  obtain ⟨_, hptr⟩ :=
    run_attribCmdsUpTo
      (g.run [GLCmd.bindVertexArray va,
        GLCmd.bindBuffer GL_ELEMENT_ARRAY_BUFFER ibo])
      v ld ld.attributes.length
  have htail :
      ∀ g' : GLContext,
        (g'.run [GLCmd.bindVertexArray 0, GLCmd.bindBuffer GL_ARRAY_BUFFER 0,
          GLCmd.bindBuffer GL_ELEMENT_ARRAY_BUFFER 0]).vaoPointer =
          g'.vaoPointer := by
    intro g'
    show (((g'.exec (GLCmd.bindVertexArray 0)).exec
      (GLCmd.bindBuffer GL_ARRAY_BUFFER 0)).exec
        (GLCmd.bindBuffer GL_ELEMENT_ARRAY_BUFFER 0)).vaoPointer =
          g'.vaoPointer
    rw [exec_vaoPointer _ _ (by intro a b c d e f h; cases h),
      exec_vaoPointer _ _ (by intro a b c d e f h; cases h),
      exec_vaoPointer _ _ (by intro a b c d e f h; cases h)]
  have hsplit :
      mkMeshACmds v ibo va ld =
        ([GLCmd.bindVertexArray va,
          GLCmd.bindBuffer GL_ELEMENT_ARRAY_BUFFER ibo] ++
            attribCmds v ld) ++
          [GLCmd.bindVertexArray 0, GLCmd.bindBuffer GL_ARRAY_BUFFER 0,
            GLCmd.bindBuffer GL_ELEMENT_ARRAY_BUFFER 0] := by
    simp [mkMeshACmds]
  rw [hsplit, GLContext.run_append, GLContext.run_append, htail, attribCmds,
    hptr va i, hbva2]
  simp [hi]

/-- After the full Form B wiring command sequence, attribute slot i of the
new vertex-array holds the captured value for attribute i. -/
theorem run_mkMeshBCmds_vaoPointer (g : GLContext) (v : List Nat)
    (ibo va : Nat) (ld : VertexLayout) (i : Nat)
    (hi : i < ld.attributes.length) :
    (g.run (mkMeshBCmds v ibo va ld)).vaoPointer va i =
      some (capturedPtr v ld i) := by
  have hbva2 :
      (g.run [GLCmd.bindVertexArray va,
        GLCmd.bindBuffer GL_ELEMENT_ARRAY_BUFFER ibo]).boundVertexArray =
        va := by
    show ((g.exec (GLCmd.bindVertexArray va)).exec
      (GLCmd.bindBuffer GL_ELEMENT_ARRAY_BUFFER ibo)).boundVertexArray = va
    rw [exec_boundVertexArray _ _ (by intro hdl h; cases h)]
    rfl
  obtain ⟨_, hptr⟩ :=
    run_attribCmdsUpTo
      (g.run [GLCmd.bindVertexArray va,
        GLCmd.bindBuffer GL_ELEMENT_ARRAY_BUFFER ibo])
      v ld ld.attributes.length
  have htail :
      ∀ g' : GLContext,
        (g'.run [GLCmd.bindVertexArray 0,
          GLCmd.bindBuffer GL_ARRAY_BUFFER 0]).vaoPointer = g'.vaoPointer := by
    intro g'
    show ((g'.exec (GLCmd.bindVertexArray 0)).exec
      (GLCmd.bindBuffer GL_ARRAY_BUFFER 0)).vaoPointer = g'.vaoPointer
    rw [exec_vaoPointer _ _ (by intro a b c d e f h; cases h),
      exec_vaoPointer _ _ (by intro a b c d e f h; cases h)]
  have hsplit :
      mkMeshBCmds v ibo va ld =
        ([GLCmd.bindVertexArray va,
          GLCmd.bindBuffer GL_ELEMENT_ARRAY_BUFFER ibo] ++
            attribCmds v ld) ++
          [GLCmd.bindVertexArray 0, GLCmd.bindBuffer GL_ARRAY_BUFFER 0] := by
    simp [mkMeshBCmds]
  rw [hsplit, GLContext.run_append, GLContext.run_append, htail, attribCmds,
    hptr va i, hbva2]
  simp [hi]

/-! ## Helper lemmas -/

theorem readBytes_length (p : Nat → Nat) (n : Nat) :
    (readBytes p n).length = n := by
  simp [readBytes]

theorem getD_map_range {α : Type} (f : Nat → α) (n i : Nat) (d : α)
    (h : i < n) : ((List.range n).map f).getD i d = f i := by
  rw [List.getD_eq_getElem?_getD, List.getElem?_map, List.getElem?_range h]
  rfl

theorem bufferSubDataRaw_handle (b : BufferObject) (d : Nat → Nat)
    (s o : Nat) : (b.bufferSubDataRaw d s o).handle = b.handle := by
  rw [BufferObject.bufferSubDataRaw]
  split <;> rfl

theorem bufferSubDataC_handle (b : BufferObject) (c : Container) (o : Nat) :
    (b.bufferSubDataC c o).handle = b.handle :=
  bufferSubDataRaw_handle ..

theorem map_handle_set (l : List BufferObject) (i : Nat)
    (g : BufferObject → BufferObject) (hg : ∀ b, (g b).handle = b.handle) :
    (l.set i (g (l.getD i defaultBuffer))).map (fun b => b.handle) =
      l.map fun b => b.handle := by
  induction l generalizing i with
  | nil => rfl
  | cons a l ih =>
    cases i with
    | zero =>
      show (g ((a :: l).getD 0 defaultBuffer) :: l).map _ = _
      simp [hg]
    | succ n =>
      show (a :: l.set n (g ((a :: l).getD (n + 1) defaultBuffer))).map _ = _
      rw [show (a :: l).getD (n + 1) defaultBuffer = l.getD n defaultBuffer
        from rfl]
      simp only [List.map_cons]
      rw [ih n]

/-- The index element size the spec assigns to each index-type enumerant:
1, 2 and 4 bytes for the 8-, 16- and 32-bit unsigned integer types. -/
def elementSize (t : Nat) : Nat :=
  if t = GL_UNSIGNED_BYTE then 1
  else if t = GL_UNSIGNED_SHORT then 2
  else if t = GL_UNSIGNED_INT then 4
  else 0

/-- Arithmetic core of the indices-count invariant: when the element size
divides the byte size and the quotient fits a GLuint, the truncating cast is
the identity and the division inverts. -/
theorem indicesCnt_mul (t ibs : Nat)
    (ht : t = GL_UNSIGNED_BYTE ∨ t = GL_UNSIGNED_SHORT ∨ t = GL_UNSIGNED_INT)
    (hdvd : elementSize t ∣ ibs) (hlt : ibs / elementSize t < 2 ^ 32) :
    indicesCntFromByteSize t ibs * elementSize t = ibs ∧
      indicesCntFromByteSize t ibs = ibs / elementSize t := by
  rcases ht with h | h | h <;> subst h
  · rw [show elementSize GL_UNSIGNED_BYTE = 1 from rfl] at hdvd hlt ⊢
    rw [show ∀ b, indicesCntFromByteSize GL_UNSIGNED_BYTE b = b / 1 % 2 ^ 32
      from fun b => rfl]
    rw [Nat.mod_eq_of_lt hlt]
    exact ⟨Nat.div_mul_cancel hdvd, rfl⟩
  · rw [show elementSize GL_UNSIGNED_SHORT = 2 from rfl] at hdvd hlt ⊢
    rw [show ∀ b, indicesCntFromByteSize GL_UNSIGNED_SHORT b = b / 2 % 2 ^ 32
      from fun b => rfl]
    rw [Nat.mod_eq_of_lt hlt]
    exact ⟨Nat.div_mul_cancel hdvd, rfl⟩
  · rw [show elementSize GL_UNSIGNED_INT = 4 from rfl] at hdvd hlt ⊢
    rw [show ∀ b, indicesCntFromByteSize GL_UNSIGNED_INT b = b / 4 % 2 ^ 32
      from fun b => rfl]
    rw [Nat.mod_eq_of_lt hlt]
    exact ⟨Nat.div_mul_cancel hdvd, rfl⟩

/-! ## Concrete fixtures used by witnesses and counterexamples -/

/-- A data pointer whose every byte is 0. -/
def zeroPtr : Nat → Nat := fun _ => 0

def attrPos : VLAttribute := ⟨3, GL_FLOAT, false, 0⟩

def attrUV : VLAttribute := ⟨2, GL_FLOAT, false, 12⟩

/-- Interleaved layout of the spec's scenario 1: one shared stride of 20
bytes, position and uv attributes. -/
def ldInterleaved : VertexLayout :=
  ⟨[attrPos, attrUV], [20], Or.inl rfl⟩

/-- A one-attribute interleaved layout. -/
def ldSingle : VertexLayout :=
  ⟨[attrPos], [20], Or.inl rfl⟩

/-- The spec's scenario 1 mesh: one 80-byte vertex buffer, a 24-byte index
buffer of 32-bit indices, handles 1 (vbo), 2 (ibo) and 3 (vertex-array). -/
def meshQuad : Mesh :=
  mkMeshA [zeroPtr] [80] zeroPtr 24 ldInterleaved GL_UNSIGNED_INT
    GL_STATIC_DRAW GL_TRIANGLES [1] 2 3

/-- A mesh whose index buffer byte size (5) is not divisible by the index
element size (4). -/
def meshRagged : Mesh :=
  mkMeshA [zeroPtr] [12] zeroPtr 5 ldSingle GL_UNSIGNED_INT GL_STATIC_DRAW
    GL_TRIANGLES [1] 2 3

/-- A 20-byte container of 5 elements of 4 bytes. -/
def cont20 : Container := ⟨4, 5, zeroPtr⟩

/-- A context in which buffer 5 is bound to the array-buffer target. -/
def gArrayBound5 : GLContext :=
  { GLContext.init with boundArrayBuffer := 5 }

/-! ## Claim C1 -/

/-- Claim C1, counterexample: a Form A mesh constructed with a 5-byte index
buffer and 32-bit indices has getIndicesCount() = 1 (the division
truncates), so getIndicesCount() times the element size is 4, not the index
buffer byte size 5. -/
theorem claim_C1_counterexample :
    meshRagged.getIndicesCount * elementSize meshRagged.getIndexType ≠
      meshRagged.getIndexBufferByteSize := by
  decide

/-- Closed form of the Form B indices count and index-buffer byte size for
32-bit indices: the byte size is cast to GLuint (Mesh.hpp line 292) before
the division by 4, while the index buffer itself holds the full byte
count. -/
theorem mkMeshB_indicesCnt_ui (vd : List Container) (c : Container)
    (ld : VertexLayout) (u p : Nat) (vh : List Nat) (ih va : Nat) :
    (mkMeshB vd c ld GL_UNSIGNED_INT u p vh ih va).getIndicesCount =
        c.count * c.elemSize % 2 ^ 32 / 4 ∧
      (mkMeshB vd c ld GL_UNSIGNED_INT u p vh ih va).getIndexBufferByteSize =
        c.count * c.elemSize := by
  constructor
  · show indicesCntFromByteSize GL_UNSIGNED_INT
      (c.count * c.elemSize % 2 ^ 32) = c.count * c.elemSize % 2 ^ 32 / 4
    rw [indicesCntFromByteSize, if_pos rfl]
    exact Nat.mod_eq_of_lt
      (lt_of_le_of_lt (Nat.div_le_self _ _) (Nat.mod_lt _ (by norm_num)))
  · exact readBytes_length ..

/-- The Form B hypothesis of the amended claim C1 (byte size below 2^32) is
strictly stronger than the Form A one (quotient below 2^32), and necessarily
so: at the first excluded point — a container of 2^30 four-byte elements, a
2^32-byte index buffer — the GLuint cast of vi_size (Mesh.hpp line 292)
happens before the division and truncates it to 0, so the mesh reports 0
indices against a 2^32-byte index buffer. -/
theorem mkMeshB_byteSize_truncation :
    (mkMeshB [] ⟨4, 2 ^ 30, zeroPtr⟩ ldSingle GL_UNSIGNED_INT GL_STATIC_DRAW
      GL_TRIANGLES [] 2 3).getIndicesCount = 0 ∧
    (mkMeshB [] ⟨4, 2 ^ 30, zeroPtr⟩ ldSingle GL_UNSIGNED_INT GL_STATIC_DRAW
      GL_TRIANGLES [] 2 3).getIndexBufferByteSize = 2 ^ 32 := by
  obtain ⟨ha, hb⟩ :=
    mkMeshB_indicesCnt_ui [] ⟨4, 2 ^ 30, zeroPtr⟩ ldSingle GL_STATIC_DRAW
      GL_TRIANGLES [] 2 3
  constructor
  · rw [ha]
    norm_num
  · rw [hb]
    norm_num

/-- Claim C1, amended: for every constructed Mesh whose index type is one of
the three unsigned integer enumerants and whose index-buffer byte size is
divisible by the index element size, getIndicesCount() times the element
size of getIndexType() equals getIndexBufferByteSize() (and
getIndicesCount() is the byte size divided by the element size), provided
the quantity the code casts to GLuint is unchanged by that cast: for Form A
the quotient byte_size / element_size fits a 32-bit unsigned integer, for
Form B the container's total byte size itself does (the source casts the
byte size to GLuint before dividing). -/
theorem claim_C1_amended :
    (∀ (vd : List (Nat → Nat)) (szs : List Nat) (idx : Nat → Nat) (ibs : Nat)
        (ld : VertexLayout) (t u p : Nat) (vh : List Nat) (ih va : Nat),
        (t = GL_UNSIGNED_BYTE ∨ t = GL_UNSIGNED_SHORT ∨ t = GL_UNSIGNED_INT) →
        elementSize t ∣ ibs → ibs / elementSize t < 2 ^ 32 →
        (mkMeshA vd szs idx ibs ld t u p vh ih va).getIndicesCount *
            elementSize (mkMeshA vd szs idx ibs ld t u p vh ih
              va).getIndexType =
          (mkMeshA vd szs idx ibs ld t u p vh ih va).getIndexBufferByteSize ∧
        (mkMeshA vd szs idx ibs ld t u p vh ih va).getIndicesCount =
          (mkMeshA vd szs idx ibs ld t u p vh ih va).getIndexBufferByteSize /
            elementSize t) ∧
    ∀ (vd : List Container) (c : Container) (ld : VertexLayout) (t u p : Nat)
      (vh : List Nat) (ih va : Nat),
      (t = GL_UNSIGNED_BYTE ∨ t = GL_UNSIGNED_SHORT ∨ t = GL_UNSIGNED_INT) →
      elementSize t ∣ c.count * c.elemSize → c.count * c.elemSize < 2 ^ 32 →
      (mkMeshB vd c ld t u p vh ih va).getIndicesCount *
          elementSize (mkMeshB vd c ld t u p vh ih va).getIndexType =
        (mkMeshB vd c ld t u p vh ih va).getIndexBufferByteSize ∧
      (mkMeshB vd c ld t u p vh ih va).getIndicesCount =
        (mkMeshB vd c ld t u p vh ih va).getIndexBufferByteSize /
          elementSize t := by
  constructor
  · intro vd szs idx ibs ld t u p vh ih va ht hdvd hlt
    have hsize :
        (mkMeshA vd szs idx ibs ld t u p vh ih va).getIndexBufferByteSize =
          ibs := readBytes_length idx ibs
    have hcnt :
        (mkMeshA vd szs idx ibs ld t u p vh ih va).getIndicesCount =
          indicesCntFromByteSize t ibs := rfl
    have hty :
        (mkMeshA vd szs idx ibs ld t u p vh ih va).getIndexType = t := rfl
    rw [hsize, hcnt, hty]
    exact indicesCnt_mul t ibs ht hdvd hlt
  · intro vd c ld t u p vh ih va ht hdvd hlt
    have hsize :
        (mkMeshB vd c ld t u p vh ih va).getIndexBufferByteSize =
          c.count * c.elemSize := readBytes_length c.bytes _
    have hmod : c.count * c.elemSize % 2 ^ 32 = c.count * c.elemSize :=
      Nat.mod_eq_of_lt hlt
    have hcnt :
        (mkMeshB vd c ld t u p vh ih va).getIndicesCount =
          indicesCntFromByteSize t (c.count * c.elemSize) := by
      show indicesCntFromByteSize t (c.count * c.elemSize % 2 ^ 32) = _
      rw [hmod]
    have hty : (mkMeshB vd c ld t u p vh ih va).getIndexType = t := rfl
    rw [hsize, hcnt, hty]
    exact indicesCnt_mul t (c.count * c.elemSize) ht hdvd
      (lt_of_le_of_lt (Nat.div_le_self _ _) hlt)

/-- Claim C1, witness: the amended invariant evaluated on the scenario 1
mesh (24-byte index buffer, 32-bit indices). -/
theorem claim_C1_witness :
    ((GL_UNSIGNED_INT = GL_UNSIGNED_BYTE ∨
        GL_UNSIGNED_INT = GL_UNSIGNED_SHORT ∨
        GL_UNSIGNED_INT = GL_UNSIGNED_INT) ∧
      elementSize GL_UNSIGNED_INT ∣ 24 ∧
        24 / elementSize GL_UNSIGNED_INT < 2 ^ 32) ∧
    meshQuad.getIndicesCount * elementSize meshQuad.getIndexType =
        meshQuad.getIndexBufferByteSize ∧
      meshQuad.getIndicesCount =
        meshQuad.getIndexBufferByteSize / elementSize GL_UNSIGNED_INT :=
  ⟨⟨Or.inr (Or.inr rfl), by decide, by decide⟩,
    claim_C1_amended.1 [zeroPtr] [80] zeroPtr 24 ldInterleaved
      GL_UNSIGNED_INT GL_STATIC_DRAW GL_TRIANGLES [1] 2 3
      (Or.inr (Or.inr rfl)) (by decide) (by decide)⟩

/-! ## Claim C10 -/

/-- Claim C10: a Mesh constructed (either form) with an index type that is
none of the 8-, 16- or 32-bit unsigned integer enumerants has
getIndicesCount() = 0, whatever the index buffer byte size: the switch has
no branch for other enumerants and the counter starts at 0. -/
theorem claim_C10 (t : Nat) (h1 : t ≠ GL_UNSIGNED_BYTE)
    (h2 : t ≠ GL_UNSIGNED_SHORT) (h3 : t ≠ GL_UNSIGNED_INT) :
    (∀ (vd : List (Nat → Nat)) (szs : List Nat) (idx : Nat → Nat) (ibs : Nat)
        (ld : VertexLayout) (u p : Nat) (vh : List Nat) (ih va : Nat),
        (mkMeshA vd szs idx ibs ld t u p vh ih va).getIndicesCount = 0) ∧
    ∀ (vd : List Container) (c : Container) (ld : VertexLayout) (u p : Nat)
      (vh : List Nat) (ih va : Nat),
      (mkMeshB vd c ld t u p vh ih va).getIndicesCount = 0 := by
  constructor
  · intro vd szs idx ibs ld u p vh ih va
    show indicesCntFromByteSize t ibs = 0
    simp [indicesCntFromByteSize, h1, h2, h3]
  · intro vd c ld u p vh ih va
    show indicesCntFromByteSize t (c.count * c.elemSize % 2 ^ 32) = 0
    simp [indicesCntFromByteSize, h1, h2, h3]

/-- Claim C10, witness: a mesh declared with the GL_FLOAT enumerant as index
type reports 0 indices despite its 5-byte index buffer. -/
theorem claim_C10_witness :
    (GL_FLOAT ≠ GL_UNSIGNED_BYTE ∧ GL_FLOAT ≠ GL_UNSIGNED_SHORT ∧
      GL_FLOAT ≠ GL_UNSIGNED_INT) ∧
    (mkMeshA [zeroPtr] [12] zeroPtr 5 ldSingle GL_FLOAT GL_STATIC_DRAW
      GL_TRIANGLES [1] 2 3).getIndicesCount = 0 :=
  ⟨⟨by decide, by decide, by decide⟩,
    (claim_C10 GL_FLOAT (by decide) (by decide) (by decide)).1 [zeroPtr] [12]
      zeroPtr 5 ldSingle GL_STATIC_DRAW GL_TRIANGLES [1] 2 3⟩

/-! ## Claim C5 -/

/-- Claim C5: both overloads of bufferVertexSubData with a vbo index at or
beyond the number of vertex buffers return the mesh unchanged: no buffer
content changes and no error is raised. -/
theorem claim_C5 (m : Mesh) (vbo_idx : Nat) (data : Nat → Nat)
    (byte_size byte_offset : Nat) (vertices : Container) (co : Nat)
    (h : m.m_vbos.length ≤ vbo_idx) :
    m.bufferVertexSubData vbo_idx data byte_size byte_offset = m ∧
      m.bufferVertexSubDataC vbo_idx vertices co = m := by
  have h' : ¬vbo_idx < m.m_vbos.length := Nat.not_lt.mpr h
  constructor
  · simp [Mesh.bufferVertexSubData, h']
  · simp [Mesh.bufferVertexSubDataC, h']

/-- Claim C5, witness: the no-op evaluated on the scenario 1 mesh at the
out-of-range index 5. -/
theorem claim_C5_witness :
    meshQuad.m_vbos.length ≤ 5 ∧
      meshQuad.bufferVertexSubData 5 zeroPtr 20 0 = meshQuad ∧
        meshQuad.bufferVertexSubDataC 5 cont20 0 = meshQuad :=
  ⟨by decide, claim_C5 meshQuad 5 zeroPtr 20 0 cont20 0 (by decide)⟩

/-! ## Claim C7 -/

/-- Claim C7: getVertexBufferByteSize(i) returns the byte size supplied at
construction for an in-range index — the explicit byte size for Form A, the
container's count times element size for Form B — and returns 0 without
failing for an out-of-range index. -/
theorem claim_C7 :
    (∀ (vd : List (Nat → Nat)) (szs : List Nat) (idx : Nat → Nat) (ibs : Nat)
        (ld : VertexLayout) (t u p : Nat) (vh : List Nat) (ih va i : Nat),
        i < vd.length → szs.length = vd.length →
        (mkMeshA vd szs idx ibs ld t u p vh ih va).getVertexBufferByteSize i =
          szs.getD i 0) ∧
    (∀ (vd : List Container) (c : Container) (ld : VertexLayout) (t u p : Nat)
        (vh : List Nat) (ih va i : Nat),
        i < vd.length →
        (mkMeshB vd c ld t u p vh ih va).getVertexBufferByteSize i =
          (vd.getD i ⟨0, 0, fun _ => 0⟩).count *
            (vd.getD i ⟨0, 0, fun _ => 0⟩).elemSize) ∧
    ∀ (m : Mesh) (i : Nat),
      m.m_vbos.length ≤ i → m.getVertexBufferByteSize i = 0 := by
  refine ⟨?_, ?_, ?_⟩
  · intro vd szs idx ibs ld t u p vh ih va i hi hsz
    have hlen : (mkMeshA vd szs idx ibs ld t u p vh ih va).m_vbos.length =
        vd.length := by
      simp [mkMeshA]
    rw [Mesh.getVertexBufferByteSize, if_pos (by rw [hlen]; exact hi)]
    show (((List.range vd.length).map _).getD i defaultBuffer).getByteSize = _
    rw [getD_map_range _ _ _ _ hi]
    exact readBytes_length ..
  · intro vd c ld t u p vh ih va i hi
    have hlen : (mkMeshB vd c ld t u p vh ih va).m_vbos.length =
        vd.length := by
      simp [mkMeshB]
    rw [Mesh.getVertexBufferByteSize, if_pos (by rw [hlen]; exact hi)]
    show (((List.range vd.length).map _).getD i defaultBuffer).getByteSize = _
    rw [getD_map_range _ _ _ _ hi]
    exact readBytes_length ..
  · intro m i hi
    rw [Mesh.getVertexBufferByteSize, if_neg (Nat.not_lt.mpr hi)]

/-- Claim C7, witness: the scenario 1 mesh reports 80 bytes for vertex
buffer 0 and 0 for the out-of-range index 5. -/
theorem claim_C7_witness :
    ((0 < 1 ∧ [(80 : Nat)].length = 1) ∧
      meshQuad.getVertexBufferByteSize 0 = [(80 : Nat)].getD 0 0) ∧
    meshQuad.m_vbos.length ≤ 5 ∧ meshQuad.getVertexBufferByteSize 5 = 0 :=
  ⟨⟨⟨by decide, by decide⟩,
      claim_C7.1 [zeroPtr] [80] zeroPtr 24 ldInterleaved GL_UNSIGNED_INT
        GL_STATIC_DRAW GL_TRIANGLES [1] 2 3 0 (by decide) (by decide)⟩,
    by decide, claim_C7.2.2 meshQuad 5 (by decide)⟩

/-! ## Claim C8 -/

/-- The structural fields of a Mesh named by claim C8: indices count, index
type, primitive type, stored vertex layout, vertex-array handle, the owned
vertex-buffer handles and the index-buffer handle. -/
def Mesh.structuralView (m : Mesh) :
    Nat × Nat × Nat × VertexLayout × Nat × List Nat × Nat :=
  (m.m_indices_cnt, m.m_index_type, m.m_primitive_type, m.m_vertex_descriptor,
    m.m_va_handle, m.m_vbos.map fun b => b.handle, m.m_ibo.handle)

/-- Claim C8: no overload of bufferVertexSubData or bufferIndexSubData
changes indices_count, index_type, primitive_type, the stored vertex layout,
the vertex-array handle, or the owned buffer handles; the sub-data
operations only rewrite buffer contents in place. -/
theorem claim_C8 (m : Mesh) (idx : Nat) (data : Nat → Nat) (bs bo : Nat)
    (c : Container) (co : Nat) (idata : Nat → Nat) (ibs ibo : Nat)
    (ic : Container) (ico : Nat) :
    (m.bufferVertexSubData idx data bs bo).structuralView =
        m.structuralView ∧
      (m.bufferVertexSubDataC idx c co).structuralView = m.structuralView ∧
        (m.bufferIndexSubData idata ibs ibo).structuralView =
            m.structuralView ∧
          (m.bufferIndexSubDataC ic ico).structuralView = m.structuralView := by
  refine ⟨?_, ?_, ?_, ?_⟩
  · rw [Mesh.bufferVertexSubData]
    split
    · show (_, _, _, _, _,
        (m.m_vbos.set idx _).map fun b => b.handle, _) = _
      rw [map_handle_set m.m_vbos idx
        (fun b => b.bufferSubDataRaw data bs bo)
        (fun b => bufferSubDataRaw_handle b data bs bo)]
      rfl
    · rfl
  · rw [Mesh.bufferVertexSubDataC]
    split
    · show (_, _, _, _, _,
        (m.m_vbos.set idx _).map fun b => b.handle, _) = _
      rw [map_handle_set m.m_vbos idx (fun b => b.bufferSubDataC c co)
        (fun b => bufferSubDataC_handle b c co)]
      rfl
    · rfl
  · show (_, _, _, _, _, _, (m.m_ibo.bufferSubDataRaw idata ibs ibo).handle) =
      _
    rw [bufferSubDataRaw_handle]
    rfl
  · show (_, _, _, _, _, _, (m.m_ibo.bufferSubDataC ic ico).handle) = _
    rw [bufferSubDataC_handle]
    rfl

/-! ## Claim C9 -/

/-- Claim C9: getPrimitiveType, getIndexType and getVertexLayout return
exactly the construction arguments (both forms); the defaulted constructor
arguments are GL_UNSIGNED_INT, GL_STATIC_DRAW and GL_TRIANGLES, and draw's
defaulted instance count is 1. -/
theorem claim_C9 :
    (∀ (vd : List (Nat → Nat)) (szs : List Nat) (idx : Nat → Nat) (ibs : Nat)
        (ld : VertexLayout) (t u p : Nat) (vh : List Nat) (ih va : Nat),
        (mkMeshA vd szs idx ibs ld t u p vh ih va).getPrimitiveType = p ∧
        (mkMeshA vd szs idx ibs ld t u p vh ih va).getIndexType = t ∧
        (mkMeshA vd szs idx ibs ld t u p vh ih va).getVertexLayout = ld ∧
        (mkMeshA vd szs idx ibs ld t u p vh ih va).m_usage = u) ∧
    (∀ (vd : List Container) (c : Container) (ld : VertexLayout) (t u p : Nat)
        (vh : List Nat) (ih va : Nat),
        (mkMeshB vd c ld t u p vh ih va).getPrimitiveType = p ∧
        (mkMeshB vd c ld t u p vh ih va).getIndexType = t ∧
        (mkMeshB vd c ld t u p vh ih va).getVertexLayout = ld ∧
        (mkMeshB vd c ld t u p vh ih va).m_usage = u) ∧
    (∀ (vd : List (Nat → Nat)) (szs : List Nat) (idx : Nat → Nat) (ibs : Nat)
        (ld : VertexLayout) (vh : List Nat) (ih va : Nat),
        mkMeshADefaults vd szs idx ibs ld vh ih va =
          mkMeshA vd szs idx ibs ld GL_UNSIGNED_INT GL_STATIC_DRAW
            GL_TRIANGLES vh ih va) ∧
    (∀ (vd : List Container) (c : Container) (ld : VertexLayout)
        (vh : List Nat) (ih va : Nat),
        mkMeshBDefaults vd c ld vh ih va =
          mkMeshB vd c ld GL_UNSIGNED_INT GL_STATIC_DRAW GL_TRIANGLES vh ih
            va) ∧
    ∀ m : Mesh, m.drawCmdsDefault = m.drawCmds 1 :=
  ⟨fun _ _ _ _ _ _ _ _ _ _ _ => ⟨rfl, rfl, rfl, rfl⟩,
    fun _ _ _ _ _ _ _ _ _ => ⟨rfl, rfl, rfl, rfl⟩,
    fun _ _ _ _ _ _ _ _ => rfl, fun _ _ _ _ _ _ => rfl, fun _ => rfl⟩

/-! ## Claim C2 -/

/-- Claim C2, counterexample: with the interleaved layout (exactly one
shared stride) and two vertex buffers with handles 1 and 2, the constructed
vertex-array has attribute 1 reading from buffer 2, not from vbos[0] whose
handle is 1.  The loop binds m_vbos[attrib_idx] unconditionally; only the
stride selection depends on the stride count. -/
theorem claim_C2_counterexample :
    ldInterleaved.strides.length = 1 ∧
      ((GLContext.init.run (mkMeshACmds [1, 2] 4 3 ldInterleaved)).vaoPointer
            3 1).map (fun q => q.bufferBinding) = some 2 ∧
        [1, 2].getD 0 0 = 1 ∧ (2 : Nat) ≠ 1 := by
  refine ⟨rfl, ?_, rfl, by decide⟩
  decide

/-- Claim C2, amended: for every attribute index i in range (and at least as
many vertex buffers as attributes), both construction forms wire attribute i
of the new vertex-array to read from vbos[i] — whether the layout supplies
one shared stride or per-attribute strides; the stride count only selects
the stride value recorded for the attribute. -/
theorem claim_C2_amended (g : GLContext) (vboHandles : List Nat)
    (iboHandle vaHandle : Nat) (ld : VertexLayout) (i : Nat)
    (hi : i < ld.attributes.length)
    (hv : ld.attributes.length ≤ vboHandles.length) :
    (g.run (mkMeshACmds vboHandles iboHandle vaHandle ld)).vaoPointer
        vaHandle i = some (capturedPtr vboHandles ld i) ∧
      (g.run (mkMeshBCmds vboHandles iboHandle vaHandle ld)).vaoPointer
          vaHandle i = some (capturedPtr vboHandles ld i) ∧
        (capturedPtr vboHandles ld i).bufferBinding = vboHandles.getD i 0 :=
  ⟨run_mkMeshACmds_vaoPointer g vboHandles iboHandle vaHandle ld i hi,
    run_mkMeshBCmds_vaoPointer g vboHandles iboHandle vaHandle ld i hi, rfl⟩

/-- Claim C2, witness: the amended wiring evaluated on the interleaved
two-attribute layout with vertex-buffer handles 1 and 2, at attribute 1. -/
theorem claim_C2_witness :
    (1 < ldInterleaved.attributes.length ∧
      ldInterleaved.attributes.length ≤ [1, 2].length) ∧
    (GLContext.init.run (mkMeshACmds [1, 2] 4 3 ldInterleaved)).vaoPointer
        3 1 = some (capturedPtr [1, 2] ldInterleaved 1) ∧
      (GLContext.init.run (mkMeshBCmds [1, 2] 4 3 ldInterleaved)).vaoPointer
          3 1 = some (capturedPtr [1, 2] ldInterleaved 1) ∧
        (capturedPtr [1, 2] ldInterleaved 1).bufferBinding =
          [1, 2].getD 1 0 :=
  ⟨⟨by decide, by decide⟩,
    claim_C2_amended GLContext.init [1, 2] 4 3 ldInterleaved 1 (by decide)
      (by decide)⟩

/-! ## Claim C3 -/

/-- The index accesses of iteration i of the constructor's per-attribute
loop (identical in both forms, Mesh.hpp lines 203-218 and 273-288): the
strides access is front() when exactly one stride is supplied and
strides[i] otherwise, and the vertex-buffer access is vbos[i].  The
proposition states that every iteration touches both collections only at
in-range indices. -/
def loopAccessesOk (ld : VertexLayout) (numVbos : Nat) : Prop :=
  ∀ i, i < ld.attributes.length →
    (ld.strides.length = 1 ∨ i < ld.strides.length) ∧ i < numVbos

/-- Claim C3: when at least as many vertex buffers as attributes are
supplied (and, for a layout with more than one stride, at least as many
strides as attributes), the per-attribute loop of both construction forms
accesses vbos and strides only at in-range indices. -/
theorem claim_C3 (ld : VertexLayout) (numVbos : Nat)
    (h1 : ld.attributes.length ≤ numVbos)
    (h2 : 1 < ld.strides.length →
      ld.attributes.length ≤ ld.strides.length) :
    loopAccessesOk ld numVbos := by
  intro i hi
  refine ⟨?_, lt_of_lt_of_le hi h1⟩
  rcases ld.strides_ok with hs | hs
  · exact Or.inl hs
  · right
    omega

/-- Claim C3, witness: the in-range property evaluated on the interleaved
two-attribute layout with two vertex buffers. -/
theorem claim_C3_witness :
    (ldInterleaved.attributes.length ≤ 2 ∧
      (1 < ldInterleaved.strides.length →
        ldInterleaved.attributes.length ≤ ldInterleaved.strides.length)) ∧
    loopAccessesOk ldInterleaved 2 :=
  ⟨⟨by decide, by decide⟩, claim_C3 ldInterleaved 2 (by decide) (by decide)⟩

/-! ## Claim C4 -/

/-- Claim C4, counterexample: in a context where buffer 5 is bound to the
array-buffer target, draw(1) leaves the array-buffer binding at 5, so it is
not true that after every draw(n) with n at least 1 both the vertex-array
binding and the array-buffer binding are zero. -/
theorem claim_C4_counterexample :
    (1 : Int) ≥ 1 ∧
      ¬((gArrayBound5.run (meshQuad.drawCmds 1)).boundVertexArray = 0 ∧
        (gArrayBound5.run (meshQuad.drawCmds 1)).boundArrayBuffer = 0) := by
  constructor
  · decide
  · decide

/-- Claim C4, amended: after every draw(n) with n at least 1, the
vertex-array binding is zero and the array-buffer binding is unchanged from
before the call (draw never touches the array-buffer target); in particular
it is zero exactly when it was already zero. -/
theorem claim_C4_amended (g : GLContext) (m : Mesh) (n : Int) (h : 1 ≤ n) :
    (g.run (m.drawCmds n)).boundVertexArray = 0 ∧
      (g.run (m.drawCmds n)).boundArrayBuffer = g.boundArrayBuffer :=
  ⟨rfl, rfl⟩

/-- Claim C4, witness: the amended post-state evaluated for draw(1) on the
scenario 1 mesh from the context with array buffer 5 bound. -/
theorem claim_C4_witness :
    (1 : Int) ≤ 1 ∧
      (gArrayBound5.run (meshQuad.drawCmds 1)).boundVertexArray = 0 ∧
        (gArrayBound5.run (meshQuad.drawCmds 1)).boundArrayBuffer =
          gArrayBound5.boundArrayBuffer :=
  ⟨by decide, claim_C4_amended gArrayBound5 meshQuad 1 (by decide)⟩

/-! ## Claim C6 -/

/-- Claim C6: draw(instance_count) issues exactly the sequence: bind the
mesh's vertex-array, one indexed instanced draw with the stored primitive
type, indices count and index type, a null index pointer (0) and the given
instance count, then unbind the vertex-array — in that order — and leaves
the vertex-array binding at zero. -/
theorem claim_C6 (g : GLContext) (m : Mesh) (n : Int) :
    (g.run (m.drawCmds n)).log =
        g.log ++
          [GLCmd.bindVertexArray m.m_va_handle,
            GLCmd.drawElementsInstanced m.m_primitive_type m.m_indices_cnt
              m.m_index_type 0 n,
            GLCmd.bindVertexArray 0] ∧
      (g.run (m.drawCmds n)).boundVertexArray = 0 := by
  constructor
  · show (((g.exec (GLCmd.bindVertexArray m.m_va_handle)).exec
      (GLCmd.drawElementsInstanced m.m_primitive_type m.m_indices_cnt
        m.m_index_type 0 n)).exec (GLCmd.bindVertexArray 0)).log = _
    simp [GLContext.exec]
  · rfl

end glowl
